import Mathlib
set_option maxRecDepth 10000

/-!
Verification of the ouvrt device protocol layer against its specification.

The definitions below are shallow embeddings of the C sources under src/:
vive-imu.c, rift.c, rift-radio.c and vive-controller-usb.c.  Machine
integers are modelled as Nat with explicit reductions mod powers of two
where the C code relies on fixed-width wraparound.  Definitions whose doc
comment starts with "Modelled from the spec:" embed code of this repository
that is referenced but not present under src/ (headers with report layouts
and constants, buttons.c); they follow the words of spec.md.
-/

/-! ## vive-imu.c -/

/-- oldest_sequence_index from vive-imu.c lines 16 to 24: returns 1 when the
first counter equals the second plus 2 in uint8 arithmetic, else 2 when the
second equals the third plus 2, else 0.  Byte values are Nats below 256 and
the uint8 cast is reduction mod 256. -/
def oldest_sequence_index (a b c : Nat) : Nat :=
  if a = (b + 2) % 256 then 1
  else if b = (c + 2) % 256 then 2
  else 0

/-- One IMU sample slot as read by vive_imu_decode_message: its sequence byte
and its little-endian 32-bit tick.  The accelerometer and gyro words are also
decoded by the source but feed no state that the claims mention. -/
structure ViveImuSample where
  seq : Nat
  time : Nat
deriving DecidableEq

/-- The struct vive_imu fields that vive_imu_decode_message updates: the last
delivered sequence byte and the unwrapped 64-bit microsecond time. -/
structure ViveImuState where
  sequence : Nat
  time : Nat
deriving DecidableEq

/-- The skip test of the decode loop (vive-imu.c lines 98 to 100): the sample
sequence equals last_seq, last_seq - 1 or last_seq - 2 in uint8 arithmetic;
for a byte value last_seq below 256 the casts are (last_seq + 255) mod 256
and (last_seq + 254) mod 256. -/
def skip_seen (seq last_seq : Nat) : Bool :=
  seq == last_seq || seq == (last_seq + 255) % 256 || seq == (last_seq + 254) % 256

/-- The timestamp unwrap step of vive-imu.c lines 110 to 114.  The source
computes raw.time = imu->time & ~0xffffffff, but 0xffffffff has type
unsigned int in C, so ~0xffffffff is the unsigned-int constant 0 and the
AND clears the whole stored value: raw.time starts at 0, not at the stored
upper 32 bits.  Then 2 ^ 32 is added when the new 32-bit tick is below the
stored low 32 bits, and the tick is placed in the low 32 bits (the C
bitwise or of 0 or 2 ^ 32 with a tick below 2 ^ 32 is addition). -/
def vive_imu_update_time (time sample_time : Nat) : Nat :=
  (if sample_time < time % 4294967296 then 4294967296 else 0) + sample_time

/-- Slot lookup with the wrapping slot index i mod 3 of the decode loop. -/
def vive_imu_slot (s0 s1 s2 : ViveImuSample) (i : Nat) : ViveImuSample :=
  if i % 3 = 0 then s0 else if i % 3 = 1 then s1 else s2

/-- Body of one decode loop iteration of vive_imu_decode_message: skip a
sample inside the duplicate suppression window, otherwise record its sequence
and unwrap its tick into the stored time.  Delivered sequence numbers are
collected in order next to the state. -/
def vive_imu_step (last_seq : Nat) (acc : ViveImuState × List Nat) (s : ViveImuSample) :
    ViveImuState × List Nat :=
  if skip_seen s.seq last_seq then acc
  else ({ sequence := s.seq, time := vive_imu_update_time acc.1.time s.time }, acc.2 ++ [s.seq])

/-- vive_imu_decode_message from vive-imu.c lines 71 to 119 at the level of
the three sample slots: capture last_seq, start at the slot with the oldest
sequence number, walk three slots forward wrapping mod 3, skip already seen
samples and update sequence and time for each delivered one.  Returns the
updated state and the delivered sequence numbers in delivery order. -/
def vive_imu_decode_message (s0 s1 s2 : ViveImuSample) (st : ViveImuState) :
    ViveImuState × List Nat :=
  [vive_imu_slot s0 s1 s2 (oldest_sequence_index s0.seq s1.seq s2.seq),
   vive_imu_slot s0 s1 s2 (oldest_sequence_index s0.seq s1.seq s2.seq + 1),
   vive_imu_slot s0 s1 s2 (oldest_sequence_index s0.seq s1.seq s2.seq + 2)].foldl
    (vive_imu_step st.sequence) (st, [])

/-- Iterated timestamp unwrapping: the stored time after each tick of a tick
sequence, in order. -/
def vive_imu_unwrap_trace : Nat → List Nat → List Nat
  | _, [] => []
  | time, t :: ts =>
      vive_imu_update_time time t :: vive_imu_unwrap_trace (vive_imu_update_time time t) ts

/-! ## Report byte access (vive-controller-usb.c dispatch) -/

/-- Little-endian 32-bit read at an offset of a byte list (missing bytes read
as zero). -/
def le32_at (buf : List Nat) (off : Nat) : Nat :=
  buf.getD off 0 + 256 * buf.getD (off + 1) 0 + 65536 * buf.getD (off + 2) 0
    + 16777216 * buf.getD (off + 3) 0

/-- Modelled from the spec: struct vive_imu_sample of vive-hid-reports.h is
not under src/.  Per section 4.1 a sample packs three little-endian 16-bit
accelerometer words, three gyro words, a little-endian 32-bit tick and a
sequence byte, 17 bytes in slot order after the id byte; the report is the id
byte followed by the three slots (52 bytes). -/
def vive_imu_sample_of_bytes (buf : List Nat) (i : Nat) : ViveImuSample :=
  { seq := buf.getD (1 + 17 * i + 16) 0, time := le32_at buf (1 + 17 * i + 12) }

/-- Modelled from the spec: the VIVE_IMU_REPORT_ID constant of
vive-hid-reports.h is not under src/; the leading id byte value is a fixed
wire format constant (sections 3 and 6). -/
def VIVE_IMU_REPORT_ID : Nat := 32

/-- The IMU dispatch arm of vive_controller_usb_thread, vive-controller-usb.c
lines 246 to 258: the report is decoded only when the read returned 52 bytes
and the leading byte is the IMU report id; any other report is only logged
and the IMU state is unchanged. -/
def vive_controller_usb_handle_imu_report (ret : Nat) (buf : List Nat) (st : ViveImuState) :
    ViveImuState :=
  if ret = 52 ∧ buf.head? = some VIVE_IMU_REPORT_ID then
    (vive_imu_decode_message (vive_imu_sample_of_bytes buf 0) (vive_imu_sample_of_bytes buf 1)
      (vive_imu_sample_of_bytes buf 2) st).1
  else st

/-! ## rift.c -/

/-- rift_set_report_rate from rift.c lines 70 to 102: the requested rate is
clamped to the sample rate from above first and to 5 Hz from below second;
the packet interval written to the device is sample_rate / rate - 1 in C int
arithmetic.  Returns the configured report rate and the packet interval. -/
def rift_set_report_rate (sample_rate report_rate : Nat) : Nat × Int :=
  let r1 := if report_rate > sample_rate then sample_rate else report_rate
  let r2 := if r1 < 5 then 5 else r1
  (r2, (sample_rate : Int) / (r2 : Int) - 1)

/-- The per-record validation and deinterleave of rift_get_led_patterns,
rift.c lines 203 to 232: the declared length must be 10; the packed 32-bit
value must satisfy (pattern AND NOT 0xaaaaa) = 0x55555, that is each 2-bit
symbol at the ten even bit positions is 01 or 11 and the bits above them are
clear; a valid value is collapsed by the mask-and-shift cascade into the
10-bit blink sequence.  A rejected record aborts session start, modelled as
none. -/
def rift_decode_led_pattern (pattern_length : Nat) (pattern : Nat) : Option Nat :=
  if pattern_length ≠ 10 then none
  else if pattern &&& 0xfff55555 ≠ 0x55555 then none
  else
    let p1 := pattern &&& 0xaaaaa
    let p2 := p1 ||| (p1 >>> 1)
    let p3 := p2 &&& 0x66666
    let p4 := p3 ||| (p3 >>> 2)
    let p5 := p4 &&& 0xe1e1e
    let p6 := p5 ||| (p5 >>> 4)
    let p7 := p6 &&& 0xe01fe
    let p8 := p7 ||| (p7 >>> 8)
    some ((p8 >>> 1) &&& 0x3ff)

/-- Modelled from the spec: the encoder direction of the round trip property
of section 8; symbol i of the packed value is 11 (value 3) when bit i of the
10-bit blink sequence is set and 01 (value 1) otherwise. -/
def rift_encode_led_pattern (bits : Nat) : Nat :=
  (List.range 10).foldl (fun acc i => acc + (if bits.testBit i then 3 else 1) * 4 ^ i) 0

/-- Modelled from the spec: sizeof(struct rift_sensor_message);
rift-hid-reports.h is not under src/ and the sensor input report is a fixed
64-byte report (sections 4.1 and 6). -/
def rift_sensor_message_size : Nat := 64

/-- rift_decode_sensor_message, rift.c lines 395 to 471, reduced to its
observable state change: a buffer shorter than the message size is ignored,
otherwise priv.last_sample_timestamp is set to the little-endian 32-bit
sample timestamp of the message.  The field offset 8 is modelled from the
spec since rift-hid-reports.h is not under src/.  The function never examines
the leading id byte of the buffer. -/
def rift_decode_sensor_message (buf : List Nat) (len : Nat) (last_sample_timestamp : Nat) :
    Nat :=
  if len < rift_sensor_message_size then last_sample_timestamp
  else le32_at buf 8

/-- Linux poll event bit POLLIN, a fixed platform ABI constant. -/
def POLLIN : Nat := 1

/-- Linux poll event bit POLLERR, a fixed platform ABI constant. -/
def POLLERR : Nat := 8

/-- Linux poll event bit POLLHUP, a fixed platform ABI constant. -/
def POLLHUP : Nat := 16

/-- Linux poll event bit POLLNVAL, a fixed platform ABI constant. -/
def POLLNVAL : Nat := 32

/-- Outcome of one rift_thread loop iteration. -/
inductive RiftLoopAction where
  | keepalive
  | exitLoop
  | processReport
deriving DecidableEq

/-- One iteration of the rift_thread poll loop, rift.c lines 543 to 575,
after the poll call: fds.events was set to POLLIN before polling and poll
writes the descriptor status into fds.revents; the source then tests
fds.events AND (POLLERR OR POLLHUP OR POLLNVAL) as the exit condition.
poll_ret is the poll return value, revents is the status poll reported;
revents is never read by the source, which is exactly what claim C6 is
about. -/
@[nolint unusedArguments]
def rift_thread_iteration (poll_ret : Int) (count report_rate : Nat) (revents : Nat) :
    RiftLoopAction :=
  if poll_ret = -1 ∨ poll_ret = 0 ∨ count > 9 * report_rate then RiftLoopAction.keepalive
  else if POLLIN &&& (POLLERR ||| POLLHUP ||| POLLNVAL) ≠ 0 then RiftLoopAction.exitLoop
  else RiftLoopAction.processReport

/-! ## rift-radio.c -/

/-- Modelled from the spec: the radio data message id byte of
rift-hid-reports.h, which is not under src/. -/
def RIFT_RADIO_MESSAGE_ID : Nat := 12

/-- Modelled from the spec: device type tag of the Remote target
(rift-hid-reports.h is not under src/; the three targets carry distinct
tags, section 4.5). -/
def RIFT_REMOTE : Nat := 1

/-- Modelled from the spec: device type tag of the left Touch controller. -/
def RIFT_TOUCH_CONTROLLER_LEFT : Nat := 2

/-- Modelled from the spec: device type tag of the right Touch controller. -/
def RIFT_TOUCH_CONTROLLER_RIGHT : Nat := 3

/-- Modelled from the spec: adc channel tag constants of rift-hid-reports.h,
which is not under src/; five distinct channel tags select the five
capacitive readings. -/
def RIFT_TOUCH_CONTROLLER_ADC_A_X : Nat := 1

/-- Modelled from the spec: adc channel tag, see RIFT_TOUCH_CONTROLLER_ADC_A_X. -/
def RIFT_TOUCH_CONTROLLER_ADC_B_Y : Nat := 2

/-- Modelled from the spec: adc channel tag, see RIFT_TOUCH_CONTROLLER_ADC_A_X. -/
def RIFT_TOUCH_CONTROLLER_ADC_REST : Nat := 3

/-- Modelled from the spec: adc channel tag, see RIFT_TOUCH_CONTROLLER_ADC_A_X. -/
def RIFT_TOUCH_CONTROLLER_ADC_STICK : Nat := 4

/-- Modelled from the spec: adc channel tag, see RIFT_TOUCH_CONTROLLER_ADC_A_X. -/
def RIFT_TOUCH_CONTROLLER_ADC_TRIGGER : Nat := 5

/-- The fields of struct rift_radio_message that rift_decode_radio_message
and its helpers read: the id byte, the device type byte, the remote button
word and the touch adc pair.  The remaining touch fields (accel, gyro,
trigger, grip, stick) are unpacked and then discarded by the source. -/
structure RiftRadioMessage where
  id : Nat
  device_type : Nat
  remote_buttons : Nat
  touch_adc_channel : Nat
  touch_adc_value : Nat
deriving DecidableEq

/-- The touch controller state written by rift-radio.c: the activation flag
of the wireless base device and the five capacitive readings. -/
structure RiftTouchController where
  active : Bool
  cap_a_x : Nat
  cap_b_y : Nat
  cap_rest : Nat
  cap_stick : Nat
  cap_trigger : Nat
deriving DecidableEq

/-- struct rift_radio state: the remote base activation flag and latched
button word plus the two touch controllers. -/
structure RiftRadio where
  remote_active : Bool
  remote_buttons : Nat
  touch0 : RiftTouchController
  touch1 : RiftTouchController
deriving DecidableEq

/-- Observable actions of one radio message dispatch, in program order:
the two activation queries over the shared control channel and the decode of
the payload of the current message. -/
inductive RadioAction where
  | querySerial
  | queryFirmware
  | decodePayload
deriving DecidableEq

/-- rift_decode_remote_message, rift-radio.c lines 127 to 134: latch the
button word when it differs from the stored one. -/
def rift_decode_remote_message (stored : Nat) (m : RiftRadioMessage) : Nat :=
  if stored ≠ m.remote_buttons then m.remote_buttons else stored

/-- rift_decode_touch_message, rift-radio.c lines 136 to 181: the switch on
adc_channel stores adc_value into the selected capacitive field; a channel
tag matching no case stores nothing.  The accelerometer, gyro, trigger, grip
and stick values are unpacked and then discarded by the source, so they do
not appear in the state. -/
def rift_decode_touch_message (touch : RiftTouchController) (m : RiftRadioMessage) :
    RiftTouchController :=
  if m.touch_adc_channel = RIFT_TOUCH_CONTROLLER_ADC_A_X then
    { touch with cap_a_x := m.touch_adc_value }
  else if m.touch_adc_channel = RIFT_TOUCH_CONTROLLER_ADC_B_Y then
    { touch with cap_b_y := m.touch_adc_value }
  else if m.touch_adc_channel = RIFT_TOUCH_CONTROLLER_ADC_REST then
    { touch with cap_rest := m.touch_adc_value }
  else if m.touch_adc_channel = RIFT_TOUCH_CONTROLLER_ADC_STICK then
    { touch with cap_stick := m.touch_adc_value }
  else if m.touch_adc_channel = RIFT_TOUCH_CONTROLLER_ADC_TRIGGER then
    { touch with cap_trigger := m.touch_adc_value }
  else touch

/-- rift_radio_activate, rift-radio.c lines 183 to 208: query the serial
number and then the firmware version over the shared control channel; a
failed query aborts activation and leaves the active flag clear, a fully
successful pair sets it.  serial_ok and firmware_ok stand for the success of
the two transfers.  Returns the resulting active flag and the queries issued
in order. -/
def rift_radio_activate (serial_ok firmware_ok : Bool) : Bool × List RadioAction :=
  if serial_ok = false then (false, [RadioAction.querySerial])
  else if firmware_ok = false then (false, [RadioAction.querySerial, RadioAction.queryFirmware])
  else (true, [RadioAction.querySerial, RadioAction.queryFirmware])

/-- rift_decode_radio_message, rift-radio.c lines 210 to 241: dispatch on the
message id and device type.  The remote payload is decoded directly; a touch
message first runs activation when that target is not yet active and then
decodes the payload of the current message whatever the activation outcome;
an unknown device type is logged and dropped; a report with a different id
byte is scanned for nonzero payload bytes and at most logged (state is never
changed on that path).  Returns the new state and the observable actions in
order. -/
def rift_decode_radio_message (serial_ok firmware_ok : Bool) (radio : RiftRadio)
    (m : RiftRadioMessage) : RiftRadio × List RadioAction :=
  if m.id = RIFT_RADIO_MESSAGE_ID then
    if m.device_type = RIFT_REMOTE then
      ({ radio with remote_buttons := rift_decode_remote_message radio.remote_buttons m },
       [RadioAction.decodePayload])
    else if m.device_type = RIFT_TOUCH_CONTROLLER_LEFT then
      let a := if radio.touch0.active = false then rift_radio_activate serial_ok firmware_ok
               else (radio.touch0.active, [])
      ({ radio with touch0 := rift_decode_touch_message { radio.touch0 with active := a.1 } m },
       a.2 ++ [RadioAction.decodePayload])
    else if m.device_type = RIFT_TOUCH_CONTROLLER_RIGHT then
      let a := if radio.touch1.active = false then rift_radio_activate serial_ok firmware_ok
               else (radio.touch1.active, [])
      ({ radio with touch1 := rift_decode_touch_message { radio.touch1 with active := a.1 } m },
       a.2 ++ [RadioAction.decodePayload])
    else (radio, [])
  else (radio, [])

/-- A touch controller state with the active flag clear and all capacitive
readings zero, as after rift_radio_init. -/
def touch_zero : RiftTouchController :=
  { active := false, cap_a_x := 0, cap_b_y := 0, cap_rest := 0, cap_stick := 0, cap_trigger := 0 }

/-- A radio state with both touch controllers and the remote inactive, as
after rift_radio_init. -/
def radio_zero : RiftRadio :=
  { remote_active := false, remote_buttons := 0, touch0 := touch_zero, touch1 := touch_zero }

/-! ## vive-controller-usb.c buttons -/

/-- Modelled from the spec: the button bit positions and logical button codes
of vive-hid-reports.h and buttons.h are not under src/; six mappings with
distinct bit positions in the order of vive_controller_usb_button_map
(trigger, grip, menu, system, thumb, touch), the trigger on bit 0. -/
def vive_controller_usb_button_map : List (Nat × Nat) :=
  [(0, 0), (2, 1), (4, 2), (5, 3), (6, 4), (7, 5)]

/-- A button edge event: the logical button code and press (true) or release
(false). -/
structure ButtonEvent where
  button : Nat
  pressed : Bool
deriving DecidableEq

/-- Modelled from the spec: ouvrt_handle_buttons of buttons.c is not under
src/; per section 4.6, for each mapping whose bit differs between the new
and the previous bitmask, emit a press or release event according to the new
bit value, in mapping list order. -/
def ouvrt_handle_buttons (buttons last_buttons : Nat) (map : List (Nat × Nat)) :
    List ButtonEvent :=
  (map.filter (fun e => buttons.testBit e.1 != last_buttons.testBit e.1)).map
    (fun e => { button := e.2, pressed := buttons.testBit e.1 })

/-- vive_controller_decode_button_message, vive-controller-usb.c lines 155 to
171: a report with a nonzero battery reading and an all-zero button field is
a heartbeat and returns immediately; otherwise a bitmask differing from the
stored one is passed to the edge detector and latched.  Returns the stored
bitmask and the emitted events. -/
def vive_controller_decode_button_message (battery buttons stored : Nat) :
    Nat × List ButtonEvent :=
  if battery ≠ 0 ∧ buttons = 0 then (stored, [])
  else if buttons ≠ stored then
    (buttons, ouvrt_handle_buttons buttons stored vive_controller_usb_button_map)
  else (stored, [])

/-! ## Helper lemmas for the sequence reconciler -/

theorem oldest_rot0 (n : Nat) :
    oldest_sequence_index (n % 256) ((n + 1) % 256) ((n + 2) % 256) = 0 := by
  unfold oldest_sequence_index
  have h1 : ¬ n % 256 = ((n + 1) % 256 + 2) % 256 := by omega
  have h2 : ¬ (n + 1) % 256 = ((n + 2) % 256 + 2) % 256 := by omega
  rw [if_neg h1, if_neg h2]

theorem oldest_rot1 (n : Nat) :
    oldest_sequence_index ((n + 2) % 256) (n % 256) ((n + 1) % 256) = 1 := by
  unfold oldest_sequence_index
  have h1 : (n + 2) % 256 = (n % 256 + 2) % 256 := by omega
  rw [if_pos h1]

theorem oldest_rot2 (n : Nat) :
    oldest_sequence_index ((n + 1) % 256) ((n + 2) % 256) (n % 256) = 2 := by
  unfold oldest_sequence_index
  have h1 : ¬ (n + 1) % 256 = ((n + 2) % 256 + 2) % 256 := by omega
  have h2 : (n + 2) % 256 = (n % 256 + 2) % 256 := by omega
  rw [if_neg h1, if_pos h2]

theorem vive_imu_fold_delivered (last : Nat) (l : List ViveImuSample)
    (st : ViveImuState) (acc : List Nat) :
    (l.foldl (vive_imu_step last) (st, acc)).2
      = acc ++ (l.map ViveImuSample.seq).filter (fun q => !(skip_seen q last)) := by
  induction l generalizing st acc with
  | nil => simp
  | cons s ts ih =>
      simp only [List.foldl_cons, List.map_cons, List.filter_cons]
      cases hsk : skip_seen s.seq last with
      | false => simp [vive_imu_step, hsk, ih]
      | true => simp [vive_imu_step, hsk, ih]

theorem vive_imu_delivered_eq (s0 s1 s2 : ViveImuSample) (st : ViveImuState) :
    (vive_imu_decode_message s0 s1 s2 st).2
      = ([vive_imu_slot s0 s1 s2 (oldest_sequence_index s0.seq s1.seq s2.seq),
          vive_imu_slot s0 s1 s2 (oldest_sequence_index s0.seq s1.seq s2.seq + 1),
          vive_imu_slot s0 s1 s2 (oldest_sequence_index s0.seq s1.seq s2.seq + 2)].map
            ViveImuSample.seq).filter (fun q => !(skip_seen q st.sequence)) := by
  unfold vive_imu_decode_message
  rw [vive_imu_fold_delivered]
  simp

/-! ## Claim theorems -/

/-- C4: for every slot rotation of three consecutive byte counters n, n + 1,
n + 2 mod 256, oldest_sequence_index returns the index of the slot holding
n; and for every triple of byte counters in which no slot counter equals
another slot counter plus 2 mod 256 (no slot trails another by 2), it
returns 0. -/
theorem oldest_sequence_index_spec :
    (∀ n : Nat,
        oldest_sequence_index (n % 256) ((n + 1) % 256) ((n + 2) % 256) = 0
      ∧ oldest_sequence_index ((n + 2) % 256) (n % 256) ((n + 1) % 256) = 1
      ∧ oldest_sequence_index ((n + 1) % 256) ((n + 2) % 256) (n % 256) = 2)
  ∧ (∀ a b c : Nat, a < 256 → b < 256 → c < 256 →
      ¬ a = (b + 2) % 256 → ¬ b = (a + 2) % 256 →
      ¬ b = (c + 2) % 256 → ¬ c = (b + 2) % 256 →
      ¬ a = (c + 2) % 256 → ¬ c = (a + 2) % 256 →
      oldest_sequence_index a b c = 0) := by
  constructor
  · intro n
    exact ⟨oldest_rot0 n, oldest_rot1 n, oldest_rot2 n⟩
  · intro a b c _ _ _ h1 _ h2 _ _ _
    unfold oldest_sequence_index
    rw [if_neg h1, if_neg h2]

/-- Instance of C4 at concrete inputs: the rotation (7, 8, 9) and a triple
with no trails-by-2 pair. -/
theorem oldest_sequence_index_spec_instance :
    oldest_sequence_index (7 % 256) ((7 + 1) % 256) ((7 + 2) % 256) = 0
    ∧ oldest_sequence_index 0 10 20 = 0 :=
  ⟨(oldest_sequence_index_spec.1 7).1,
   oldest_sequence_index_spec.2 0 10 20 (by decide) (by decide) (by decide)
     (by decide) (by decide) (by decide) (by decide) (by decide) (by decide)⟩

/-- C1: for any slot rotation of a consecutive round-robin sequence triple
n, n + 1, n + 2 mod 256 and any prior last-delivered byte, the decode loop
of vive_imu_decode_message delivers exactly the sequence numbers outside the
duplicate suppression window, each exactly once (the delivered list has no
duplicates), in increasing sequence order starting at the oldest, and never
delivers a number equal to the last-delivered byte or either of its two
predecessors mod 256. -/
theorem imu_sequence_reconciler_delivery (n last t : Nat)
    (s0 s1 s2 : ViveImuSample)
    (hlast : last < 256)
    (hrot : (s0.seq = n % 256 ∧ s1.seq = (n + 1) % 256 ∧ s2.seq = (n + 2) % 256)
          ∨ (s0.seq = (n + 2) % 256 ∧ s1.seq = n % 256 ∧ s2.seq = (n + 1) % 256)
          ∨ (s0.seq = (n + 1) % 256 ∧ s1.seq = (n + 2) % 256 ∧ s2.seq = n % 256)) :
    (vive_imu_decode_message s0 s1 s2 { sequence := last, time := t }).2
        = [n % 256, (n + 1) % 256, (n + 2) % 256].filter (fun q => !(skip_seen q last))
    ∧ ((vive_imu_decode_message s0 s1 s2 { sequence := last, time := t }).2).Nodup
    ∧ ∀ q ∈ (vive_imu_decode_message s0 s1 s2 { sequence := last, time := t }).2,
        skip_seen q last = false := by
  have hmain : (vive_imu_decode_message s0 s1 s2 { sequence := last, time := t }).2
      = [n % 256, (n + 1) % 256, (n + 2) % 256].filter (fun q => !(skip_seen q last)) := by
    rw [vive_imu_delivered_eq]
    rcases hrot with ⟨h0, h1, h2⟩ | ⟨h0, h1, h2⟩ | ⟨h0, h1, h2⟩
    · have hi : oldest_sequence_index s0.seq s1.seq s2.seq = 0 := by
        rw [h0, h1, h2]; exact oldest_rot0 n
      rw [hi]
      simp only [vive_imu_slot]
      norm_num
      rw [h0, h1, h2]
    · have hi : oldest_sequence_index s0.seq s1.seq s2.seq = 1 := by
        rw [h0, h1, h2]; exact oldest_rot1 n
      rw [hi]
      simp only [vive_imu_slot]
      norm_num
      rw [h0, h1, h2]
    · have hi : oldest_sequence_index s0.seq s1.seq s2.seq = 2 := by
        rw [h0, h1, h2]; exact oldest_rot2 n
      rw [hi]
      simp only [vive_imu_slot]
      norm_num
      rw [h0, h1, h2]
  refine ⟨hmain, ?_, ?_⟩
  · rw [hmain]
    apply List.Nodup.filter
    have h01 : n % 256 ≠ (n + 1) % 256 := by omega
    have h02 : n % 256 ≠ (n + 2) % 256 := by omega
    have h12 : (n + 1) % 256 ≠ (n + 2) % 256 := by omega
    simp [List.nodup_cons, h01, h02, h12]
  · intro q hq
    rw [hmain] at hq
    have := List.of_mem_filter hq
    simpa using this

/-- Instance of C1: sequence triple 5, 6, 7 stored in slot order (7, 5, 6)
with last delivered byte 6; only 7 is delivered. -/
theorem imu_sequence_reconciler_delivery_instance :
    (vive_imu_decode_message ⟨7, 0⟩ ⟨5, 0⟩ ⟨6, 0⟩ { sequence := 6, time := 0 }).2
        = [5 % 256, (5 + 1) % 256, (5 + 2) % 256].filter (fun q => !(skip_seen q 6))
    ∧ ((vive_imu_decode_message ⟨7, 0⟩ ⟨5, 0⟩ ⟨6, 0⟩ { sequence := 6, time := 0 }).2).Nodup
    ∧ ∀ q ∈ (vive_imu_decode_message ⟨7, 0⟩ ⟨5, 0⟩ ⟨6, 0⟩ { sequence := 6, time := 0 }).2,
        skip_seen q 6 = false :=
  imu_sequence_reconciler_delivery 5 6 0 ⟨7, 0⟩ ⟨5, 0⟩ ⟨6, 0⟩ (by decide)
    (Or.inr (Or.inl (by decide)))

/-- C2: evaluating the timestamp unwrapper at the 32-bit ticks 2 ^ 32 - 1,
5, 5 (at most one wraparound between consecutive observations) starting
from stored time 0: the outputs are 2 ^ 32 - 1, 2 ^ 32 + 5 and then 5, a
decrease, so the output sequence is not non-decreasing.  The source clears
the accumulated upper 32 bits on every sample because
imu->time & ~0xffffffff is imu->time & 0 (vive-imu.c line 111), where the
spec and the claim require the upper bits to be kept. -/
theorem imu_timestamp_unwrap_not_monotone :
    vive_imu_unwrap_trace 0 [4294967295, 5, 5] = [4294967295, 4294967301, 5]
    ∧ ¬ List.Chain' (fun x y => x ≤ y) (0 :: vive_imu_unwrap_trace 0 [4294967295, 5, 5]) := by
  have h : vive_imu_unwrap_trace 0 [4294967295, 5, 5] = [4294967295, 4294967301, 5] := by
    decide
  refine ⟨h, ?_⟩
  rw [h]
  intro hc
  rcases List.chain'_cons.mp hc with ⟨_, hc2⟩
  rcases List.chain'_cons.mp hc2 with ⟨_, hc3⟩
  rcases List.chain'_cons.mp hc3 with ⟨hle, _⟩
  omega

theorem led_pattern_masks_testBit (i : Nat) (h : i < 10) :
    Nat.testBit 0xfff55555 (2 * i) = true ∧ Nat.testBit 0x55555 (2 * i) = true := by
  interval_cases i <;> exact ⟨by decide, by decide⟩

/-- C3: the blink pattern decoder rejects a record whose declared symbol
count is not 10; it rejects a packed 32-bit value holding a 2-bit symbol
other than 01 (dark) or 11 (bright) at any of the ten even bit positions;
and encoding any 10-bit sequence into the packed bright/dark format (symbol
i = 11 exactly when bit i is set) and decoding it back yields the original
sequence. -/
theorem led_pattern_decode_spec :
    (∀ (pattern_length pattern : Nat), pattern_length ≠ 10 →
        rift_decode_led_pattern pattern_length pattern = none)
  ∧ (∀ (pattern i : Nat), pattern < 4294967296 → i < 10 →
        (pattern / 4 ^ i) % 4 ≠ 1 → (pattern / 4 ^ i) % 4 ≠ 3 →
        rift_decode_led_pattern 10 pattern = none)
  ∧ (∀ bits : Nat, bits < 1024 →
        rift_decode_led_pattern 10 (rift_encode_led_pattern bits) = some bits)
  ∧ (∀ bits : Nat, bits < 1024 → ∀ i : Nat, i < 10 →
        (rift_encode_led_pattern bits / 4 ^ i) % 4 = (if Nat.testBit bits i then 3 else 1)) := by
  refine ⟨?_, ?_, ?_, ?_⟩
  · intro pattern_length pattern hL
    unfold rift_decode_led_pattern
    simp [hL]
  · intro p i hp hi h1 h3
    unfold rift_decode_led_pattern
    have hbit : Nat.testBit p (2 * i) = false := by
      have h4 : (p / 4 ^ i) % 4 < 4 := Nat.mod_lt _ (by norm_num)
      have h5 := Nat.mod_mod_of_dvd (p / 4 ^ i) (by norm_num : (2:Nat) ∣ 4)
      have h2 : p / 4 ^ i % 2 = 0 := by omega
      rw [Nat.testBit_to_div_mod]
      have hpow : (2:Nat) ^ (2 * i) = 4 ^ i := by
        rw [pow_mul]; norm_num
      rw [hpow]
      simp [h2]
    have hmask : p &&& 0xfff55555 ≠ 0x55555 := by
      intro heq
      have h6 : Nat.testBit (p &&& 0xfff55555) (2 * i) = Nat.testBit 0x55555 (2 * i) := by
        rw [heq]
      rw [Nat.testBit_land] at h6
      rcases led_pattern_masks_testBit i hi with ⟨hm1, hm2⟩
      rw [hbit, hm1, hm2] at h6
      simp at h6
    simp [hmask]
  · decide
  · decide

/-- Instance of C3: wrong declared length, a symbol 00 at position 0, and the
round trip at the 10-bit sequence 683 with its symbol values. -/
theorem led_pattern_decode_spec_instance :
    rift_decode_led_pattern 9 0x55555 = none
    ∧ rift_decode_led_pattern 10 0 = none
    ∧ rift_decode_led_pattern 10 (rift_encode_led_pattern 683) = some 683
    ∧ (rift_encode_led_pattern 683 / 4 ^ 0) % 4 = (if Nat.testBit 683 0 then 3 else 1) :=
  ⟨led_pattern_decode_spec.1 9 0x55555 (by decide),
   led_pattern_decode_spec.2.1 0 0 (by decide) (by decide) (by decide) (by decide),
   led_pattern_decode_spec.2.2.1 683 (by decide),
   led_pattern_decode_spec.2.2.2 683 (by decide) 0 (by decide)⟩

/-- C5 counterexample: the Rift sensor decoder updates state for 64-byte
buffers regardless of the leading id byte.  Whatever byte value the expected
sensor report id is, at least one of the two buffers below (leading byte 0
and leading byte 255) mismatches it, yet both are decoded and change the
stored timestamp from 5 to 0. -/
theorem rift_sensor_decode_ignores_id_byte :
    rift_decode_sensor_message (List.replicate 64 0) 64 5 = 0
    ∧ rift_decode_sensor_message (255 :: List.replicate 63 0) 64 5 = 0
    ∧ (5 : Nat) ≠ 0 := by
  decide

/-- C5 amended: a buffer shorter than the variant size is rejected with no
state change on both decode paths; the leading-id-byte guard holds on the
Vive controller IMU dispatch, which decodes only a 52-byte report whose
leading byte is the IMU report id; the Rift sensor decoder checks the length
only. -/
theorem decode_reject_guards_amended :
    (∀ (ret : Nat) (buf : List Nat) (st : ViveImuState),
        (ret ≠ 52 ∨ buf.head? ≠ some VIVE_IMU_REPORT_ID) →
        vive_controller_usb_handle_imu_report ret buf st = st)
  ∧ (∀ (buf : List Nat) (len t : Nat), len < rift_sensor_message_size →
        rift_decode_sensor_message buf len t = t) := by
  constructor
  · intro ret buf st h
    unfold vive_controller_usb_handle_imu_report
    rcases h with h | h <;> simp [h]
  · intro buf len t h
    unfold rift_decode_sensor_message
    simp [h]

/-- Instance of the amended C5: a 10-byte read is rejected on both paths. -/
theorem decode_reject_guards_amended_instance :
    vive_controller_usb_handle_imu_report 10 [] { sequence := 0, time := 0 }
        = { sequence := 0, time := 0 }
    ∧ rift_decode_sensor_message [] 10 7 = 7 :=
  ⟨decode_reject_guards_amended.1 10 [] { sequence := 0, time := 0 } (Or.inl (by decide)),
   decode_reject_guards_amended.2 [] 10 7 (by decide)⟩

/-- C6: evaluating one rift_thread iteration at poll results that report a
fatal condition on the descriptor (poll returned 1 ready descriptor with
revents = POLLHUP, POLLERR or POLLNVAL, keepalive not due): the iteration
goes on to read and decode the report instead of exiting the loop, because
the source tests fds.events, which was set to the constant POLLIN, instead
of fds.revents, so the exit branch is unreachable. -/
theorem rift_thread_error_check_dead :
    rift_thread_iteration 1 0 500 POLLHUP = RiftLoopAction.processReport
    ∧ rift_thread_iteration 1 0 500 POLLERR = RiftLoopAction.processReport
    ∧ rift_thread_iteration 1 0 500 POLLNVAL = RiftLoopAction.processReport := by
  decide

/-- C9 counterexample: requested rate 10 Hz with device-reported sample rate
3 Hz: the claim demands the configured rate equal the sample rate 3 (the
case r > s), but the code configures 5 because the lower clamp is applied
second. -/
theorem report_rate_clamp_counterexample :
    10 > 3 ∧ (rift_set_report_rate 3 10).1 = 5 ∧ (5 : Nat) ≠ 3 := by
  decide

/-- C9 amended: the configured report rate is the requested rate clamped
first from above by the device-reported sample rate and then from below by
5 Hz, that is max 5 (min r s); this agrees with the claimed clamp to
[5 Hz, s] whenever s is at least 5, and is 5 when s < 5. -/
theorem report_rate_clamp_amended (sample_rate report_rate : Nat) :
    (rift_set_report_rate sample_rate report_rate).1
      = max 5 (min report_rate sample_rate) := by
  unfold rift_set_report_rate
  simp only [gt_iff_lt]
  split <;> split <;> omega

/-- C7 counterexample: the first radio message for the Remote while it is not
yet active issues no serial-number query (and no firmware query): the
dispatch decodes the payload directly and the Remote stays inactive, so the
claim does not hold for the Remote target. -/
theorem remote_message_no_activation :
    radio_zero.remote_active = false
    ∧ (rift_decode_radio_message true true radio_zero
        { id := RIFT_RADIO_MESSAGE_ID, device_type := RIFT_REMOTE, remote_buttons := 3,
          touch_adc_channel := 0, touch_adc_value := 0 }).2 = [RadioAction.decodePayload]
    ∧ RadioAction.querySerial ∉ (rift_decode_radio_message true true radio_zero
        { id := RIFT_RADIO_MESSAGE_ID, device_type := RIFT_REMOTE, remote_buttons := 3,
          touch_adc_channel := 0, touch_adc_value := 0 }).2
    ∧ (rift_decode_radio_message true true radio_zero
        { id := RIFT_RADIO_MESSAGE_ID, device_type := RIFT_REMOTE, remote_buttons := 3,
          touch_adc_channel := 0, touch_adc_value := 0 }).1.remote_active = false := by
  decide

/-- C7 amended: for the two Touch targets, the first message for a target not
yet active issues the serial-number query and, if it succeeds, the firmware
query, before the payload of the current message is decoded; the target
becomes active exactly when both queries succeed, so a failure leaves it
inactive and activation is retried on the next message; the payload of the
current message is decoded whatever the activation outcome.  A message for an
already active Touch target issues no queries.  The Remote target is decoded
without any activation query. -/
theorem radio_activation_amended (serial_ok firmware_ok : Bool) (radio : RiftRadio)
    (m : RiftRadioMessage) (hid : m.id = RIFT_RADIO_MESSAGE_ID) :
    (m.device_type = RIFT_TOUCH_CONTROLLER_LEFT → radio.touch0.active = false →
        (rift_decode_radio_message serial_ok firmware_ok radio m).2
            = (rift_radio_activate serial_ok firmware_ok).2 ++ [RadioAction.decodePayload]
        ∧ (rift_decode_radio_message serial_ok firmware_ok radio m).1.touch0
            = rift_decode_touch_message
                { radio.touch0 with active := serial_ok && firmware_ok } m)
  ∧ (m.device_type = RIFT_TOUCH_CONTROLLER_RIGHT → radio.touch1.active = false →
        (rift_decode_radio_message serial_ok firmware_ok radio m).2
            = (rift_radio_activate serial_ok firmware_ok).2 ++ [RadioAction.decodePayload]
        ∧ (rift_decode_radio_message serial_ok firmware_ok radio m).1.touch1
            = rift_decode_touch_message
                { radio.touch1 with active := serial_ok && firmware_ok } m)
  ∧ (m.device_type = RIFT_TOUCH_CONTROLLER_LEFT → radio.touch0.active = true →
        (rift_decode_radio_message serial_ok firmware_ok radio m).2
            = [RadioAction.decodePayload])
  ∧ (m.device_type = RIFT_TOUCH_CONTROLLER_RIGHT → radio.touch1.active = true →
        (rift_decode_radio_message serial_ok firmware_ok radio m).2
            = [RadioAction.decodePayload])
  ∧ (m.device_type = RIFT_REMOTE →
        (rift_decode_radio_message serial_ok firmware_ok radio m).2
            = [RadioAction.decodePayload]
        ∧ (rift_decode_radio_message serial_ok firmware_ok radio m).1.remote_active
            = radio.remote_active) := by
  have hact : (rift_radio_activate serial_ok firmware_ok).1 = (serial_ok && firmware_ok) := by
    cases serial_ok <;> cases firmware_ok <;> decide
  refine ⟨?_, ?_, ?_, ?_, ?_⟩
  · intro hdev hin
    unfold rift_decode_radio_message
    rw [hid, hdev]
    simp only [RIFT_RADIO_MESSAGE_ID, RIFT_REMOTE, RIFT_TOUCH_CONTROLLER_LEFT]
    norm_num
    rw [hin]
    simp [hact]
  · intro hdev hin
    unfold rift_decode_radio_message
    rw [hid, hdev]
    simp only [RIFT_RADIO_MESSAGE_ID, RIFT_REMOTE, RIFT_TOUCH_CONTROLLER_LEFT,
      RIFT_TOUCH_CONTROLLER_RIGHT]
    norm_num
    rw [hin]
    simp [hact]
  · intro hdev hin
    unfold rift_decode_radio_message
    rw [hid, hdev]
    simp only [RIFT_RADIO_MESSAGE_ID, RIFT_REMOTE, RIFT_TOUCH_CONTROLLER_LEFT]
    norm_num
    rw [hin]
    simp
  · intro hdev hin
    unfold rift_decode_radio_message
    rw [hid, hdev]
    simp only [RIFT_RADIO_MESSAGE_ID, RIFT_REMOTE, RIFT_TOUCH_CONTROLLER_LEFT,
      RIFT_TOUCH_CONTROLLER_RIGHT]
    norm_num
    rw [hin]
    simp
  · intro hdev
    unfold rift_decode_radio_message
    rw [hid, hdev]
    simp [RIFT_RADIO_MESSAGE_ID, RIFT_REMOTE]

/-- Instance of the amended C7: first message for the inactive left Touch
controller with a failing firmware query: the serial and firmware queries
precede the payload decode and the target stays inactive. -/
theorem radio_activation_amended_instance :
    (rift_decode_radio_message true false radio_zero
        { id := RIFT_RADIO_MESSAGE_ID, device_type := RIFT_TOUCH_CONTROLLER_LEFT,
          remote_buttons := 0, touch_adc_channel := 1, touch_adc_value := 7 }).2
        = (rift_radio_activate true false).2 ++ [RadioAction.decodePayload]
    ∧ (rift_decode_radio_message true false radio_zero
        { id := RIFT_RADIO_MESSAGE_ID, device_type := RIFT_TOUCH_CONTROLLER_LEFT,
          remote_buttons := 0, touch_adc_channel := 1, touch_adc_value := 7 }).1.touch0
        = rift_decode_touch_message { radio_zero.touch0 with active := true && false }
            { id := RIFT_RADIO_MESSAGE_ID, device_type := RIFT_TOUCH_CONTROLLER_LEFT,
              remote_buttons := 0, touch_adc_channel := 1, touch_adc_value := 7 } :=
  (radio_activation_amended true false radio_zero
      { id := RIFT_RADIO_MESSAGE_ID, device_type := RIFT_TOUCH_CONTROLLER_LEFT,
        remote_buttons := 0, touch_adc_channel := 1, touch_adc_value := 7 }
      (by decide)).1 (by decide) (by decide)

/-- C8: a button report whose bitmask equals the stored one emits no events
and leaves the stored state unchanged; a report with a nonzero battery flag
and an all-zero button field is a non-event heartbeat (no events, stored
bitmask unchanged, in particular no release of all buttons); and a
non-heartbeat report whose bitmask differs from the stored one in exactly
one mapped bit emits exactly one press or release event for that bit and
latches the new bitmask. -/
theorem button_edge_detector_spec (battery buttons stored : Nat) :
    (buttons = stored →
        vive_controller_decode_button_message battery buttons stored = (stored, []))
  ∧ (battery ≠ 0 → buttons = 0 →
        vive_controller_decode_button_message battery buttons stored = (stored, []))
  ∧ (∀ e : Nat × Nat, ¬ (battery ≠ 0 ∧ buttons = 0) →
        vive_controller_usb_button_map.filter
            (fun q => buttons.testBit q.1 != stored.testBit q.1) = [e] →
        vive_controller_decode_button_message battery buttons stored
          = (buttons, [{ button := e.2, pressed := buttons.testBit e.1 }])) := by
  refine ⟨?_, ?_, ?_⟩
  · intro h
    subst h
    unfold vive_controller_decode_button_message
    split
    · rfl
    · simp
  · intro hb h0
    unfold vive_controller_decode_button_message
    rw [if_pos ⟨hb, h0⟩]
  · intro e hnb hf
    have hne : buttons ≠ stored := by
      intro heq
      rw [heq] at hf
      simp at hf
    unfold vive_controller_decode_button_message
    rw [if_neg hnb, if_pos hne]
    unfold ouvrt_handle_buttons
    rw [hf]
    simp

/-- Instance of C8: identical bitmask twice, a battery heartbeat, and the
transition from 0b000000 to 0b000001, which presses the bit-0 mapping. -/
theorem button_edge_detector_spec_instance :
    vive_controller_decode_button_message 0 1 1 = (1, [])
    ∧ vive_controller_decode_button_message 1 0 5 = (5, [])
    ∧ vive_controller_decode_button_message 0 1 0
        = (1, [{ button := 0, pressed := true }]) := by
  refine ⟨(button_edge_detector_spec 0 1 1).1 rfl,
          (button_edge_detector_spec 1 0 5).2.1 (by decide) rfl, ?_⟩
  have h := (button_edge_detector_spec 0 1 0).2.2 (0, 0) (by decide) (by decide)
  simpa using h

/-- C10: rift_decode_touch_message updates exactly the capacitive field
selected by the adc channel tag of the message, leaving the other four (and
the activation flag) unchanged, and a message whose tag matches none of the
five known channels leaves the whole touch state unchanged. -/
theorem touch_adc_channel_update (m : RiftRadioMessage) (touch : RiftTouchController) :
    (m.touch_adc_channel = RIFT_TOUCH_CONTROLLER_ADC_A_X →
        rift_decode_touch_message touch m = { touch with cap_a_x := m.touch_adc_value })
  ∧ (m.touch_adc_channel = RIFT_TOUCH_CONTROLLER_ADC_B_Y →
        rift_decode_touch_message touch m = { touch with cap_b_y := m.touch_adc_value })
  ∧ (m.touch_adc_channel = RIFT_TOUCH_CONTROLLER_ADC_REST →
        rift_decode_touch_message touch m = { touch with cap_rest := m.touch_adc_value })
  ∧ (m.touch_adc_channel = RIFT_TOUCH_CONTROLLER_ADC_STICK →
        rift_decode_touch_message touch m = { touch with cap_stick := m.touch_adc_value })
  ∧ (m.touch_adc_channel = RIFT_TOUCH_CONTROLLER_ADC_TRIGGER →
        rift_decode_touch_message touch m = { touch with cap_trigger := m.touch_adc_value })
  ∧ (m.touch_adc_channel ≠ RIFT_TOUCH_CONTROLLER_ADC_A_X →
     m.touch_adc_channel ≠ RIFT_TOUCH_CONTROLLER_ADC_B_Y →
     m.touch_adc_channel ≠ RIFT_TOUCH_CONTROLLER_ADC_REST →
     m.touch_adc_channel ≠ RIFT_TOUCH_CONTROLLER_ADC_STICK →
     m.touch_adc_channel ≠ RIFT_TOUCH_CONTROLLER_ADC_TRIGGER →
        rift_decode_touch_message touch m = touch) := by
  refine ⟨?_, ?_, ?_, ?_, ?_, ?_⟩
  · intro h
    unfold rift_decode_touch_message
    rw [h]
    simp [RIFT_TOUCH_CONTROLLER_ADC_A_X]
  · intro h
    unfold rift_decode_touch_message
    rw [h]
    simp [RIFT_TOUCH_CONTROLLER_ADC_A_X, RIFT_TOUCH_CONTROLLER_ADC_B_Y]
  · intro h
    unfold rift_decode_touch_message
    rw [h]
    simp [RIFT_TOUCH_CONTROLLER_ADC_A_X, RIFT_TOUCH_CONTROLLER_ADC_B_Y,
      RIFT_TOUCH_CONTROLLER_ADC_REST]
  · intro h
    unfold rift_decode_touch_message
    rw [h]
    simp [RIFT_TOUCH_CONTROLLER_ADC_A_X, RIFT_TOUCH_CONTROLLER_ADC_B_Y,
      RIFT_TOUCH_CONTROLLER_ADC_REST, RIFT_TOUCH_CONTROLLER_ADC_STICK]
  · intro h
    unfold rift_decode_touch_message
    rw [h]
    simp [RIFT_TOUCH_CONTROLLER_ADC_A_X, RIFT_TOUCH_CONTROLLER_ADC_B_Y,
      RIFT_TOUCH_CONTROLLER_ADC_REST, RIFT_TOUCH_CONTROLLER_ADC_STICK,
      RIFT_TOUCH_CONTROLLER_ADC_TRIGGER]
  · intro h1 h2 h3 h4 h5
    unfold rift_decode_touch_message
    rw [if_neg h1, if_neg h2, if_neg h3, if_neg h4, if_neg h5]

/-- Instance of C10: a message on the rest channel updates cap_rest only. -/
theorem touch_adc_channel_update_instance :
    rift_decode_touch_message touch_zero
        { id := 0, device_type := 0, remote_buttons := 0,
          touch_adc_channel := 3, touch_adc_value := 9 }
      = { touch_zero with cap_rest := 9 } := by
  have h := (touch_adc_channel_update
      { id := 0, device_type := 0, remote_buttons := 0,
        touch_adc_channel := 3, touch_adc_value := 9 } touch_zero).2.2.1 (by decide)
  simpa using h
